import Mathlib

/-!
# Verification of the fan-controller core (`src/fan_controller.py`)

Shallow embedding of the `FanController` class of `src/fan_controller.py`
(MicroPython, ESP32).  Python floats are modelled as rationals (`ℚ`): all
arithmetic the verified claims exercise is exact in floating point at the
scales involved.  Millisecond timestamps (`time.ticks_ms`) are modelled as
integers; `time.ticks_diff` is modelled as subtraction (monotonic clock).
Each PWM collaborator handle is modelled as `Option ℤ`: `some d` is an
initialized handle whose current duty register holds `d`, `none` is a
channel whose PWM initialization failed (`fan_pwms[i] is None`).
-/

namespace FanSpec

/-- Floor of a rational, computed directly on its normalized representation
(kernel-reducible, unlike the `FloorRing` projection). -/
def ratFloor (q : ℚ) : ℤ := Int.fdiv q.num q.den

/-- Python `int()` applied to a float/rational: truncation toward zero. -/
def pyInt (q : ℚ) : ℤ := if 0 ≤ q then ratFloor q else -ratFloor (-q)

/-- Python `round()` to an integer: round half to even (banker's rounding). -/
def pyRound (q : ℚ) : ℤ :=
  if q - ratFloor q < 1/2 then ratFloor q
  else if 1/2 < q - ratFloor q then ratFloor q + 1
  else if ratFloor q % 2 = 0 then ratFloor q else ratFloor q + 1

/-- Python `round(x, 1)`: rounding to one decimal digit. -/
def pyRound1 (q : ℚ) : ℚ := (pyRound (10 * q) : ℚ) / 10

/-- State of a `FanController` instance (`__init__`, lines 12-44):
`fan_pwms` (PWM handles, `None` on failed init, otherwise holding the last
written duty), `fg_counters`, `fg_last_time`, `fg_frequencies`, and
`fg_pins_list` (modelled as `Bool`: was the FG pin object created). -/
structure FanController where
  fanPwms : List (Option ℤ)
  fgCounters : List ℤ
  fgLastTime : List ℤ
  fgFrequencies : List ℚ
  fgPinsList : List Bool
deriving DecidableEq

/-- `self.fan_count = len(self.fan_pins)` (line 39); `fan_pwms` gets exactly
one entry per control pin. -/
def fanCount (c : FanController) : ℕ := c.fanPwms.length

/-- The per-channel state lists all have length `fan_count` (established by
`__init__`, which appends one entry per channel to each list). -/
def WF (c : FanController) : Prop :=
  c.fgCounters.length = fanCount c ∧ c.fgLastTime.length = fanCount c ∧
  c.fgFrequencies.length = fanCount c ∧ c.fgPinsList.length = fanCount c

/-- `FanController._measure_frequency` (lines 69-95).  Returns the updated
state together with the returned frequency.  `currentTime` stands for
`time.ticks_ms()` at the moment of the call. -/
def measure_frequency (c : FanController) (fanId : ℤ) (currentTime : ℤ) :
    FanController × ℚ :=
  if ¬ (0 ≤ fanId ∧ fanId < (fanCount c : ℤ)) then (c, 0)
  else
    let i := fanId.toNat
    let freq : ℚ :=
      if c.fgLastTime.getD i 0 > 0 then
        let timeDiff := currentTime - c.fgLastTime.getD i 0
        if timeDiff > 0 then
          let pulseCount := c.fgCounters.getD i 0
          -- full_pulses = pulse_count / 2 (hardcoded 2 edges per pulse)
          ((pulseCount : ℚ) / 2 * 1000) / (timeDiff : ℚ)
        else 0
      else 0
    ({ c with
        fgFrequencies := c.fgFrequencies.set i freq,
        fgCounters := c.fgCounters.set i 0,
        fgLastTime := c.fgLastTime.set i currentTime }, freq)

/-- `FanController.set_fan_speed` (lines 97-119).  Returns the updated state
and the boolean result. -/
def set_fan_speed (c : FanController) (fanId : ℤ) (speed : ℚ) :
    FanController × Bool :=
  if ¬ (0 ≤ fanId ∧ fanId < (fanCount c : ℤ)) then (c, false)
  else if ¬ (0 ≤ speed ∧ speed ≤ 100) then (c, false)
  else
    match c.fanPwms.getD fanId.toNat none with
    | none => (c, false)
    | some _ =>
      -- duty = int(speed * 1023 / 100), then self.fan_pwms[fan_id].duty(duty)
      let duty := pyInt (speed * 1023 / 100)
      ({ c with fanPwms := c.fanPwms.set fanId.toNat (some duty) }, true)

/-- The loop body accumulator of `set_all_fans_speed` (lines 126-129):
processes channels `i, i+1, …, i+k-1`, threading the state and counting
successes. -/
def set_all_go (speed : ℚ) : FanController → ℕ → ℕ → FanController × ℕ
  | c, _, 0 => (c, 0)
  | c, i, k+1 =>
    let r := set_fan_speed c (i : ℤ) speed
    let rest := set_all_go speed r.1 (i+1) k
    (rest.1, rest.2 + (if r.2 then 1 else 0))

/-- `FanController.set_all_fans_speed` (lines 121-132): applies the single
percentage `speed` to every channel in order, counting successes; returns
`success_count == self.fan_count`. -/
def set_all_fans_speed (c : FanController) (speed : ℚ) : FanController × Bool :=
  let r := set_all_go speed c 0 (fanCount c)
  (r.1, r.2 = fanCount c)

/-- `FanController.read_fan_fg_frequency` (lines 134-148). -/
def read_fan_fg_frequency (c : FanController) (fanId : ℤ) (currentTime : ℤ) :
    FanController × ℚ :=
  if ¬ (0 ≤ fanId ∧ fanId < (fanCount c : ℤ)) then (c, 0)
  else if c.fgPinsList.getD fanId.toNat false = false then (c, 0)
  else measure_frequency c fanId currentTime

/-- `FanController.read_fan_rpm` (lines 150-163). -/
def read_fan_rpm (c : FanController) (fanId : ℤ) (currentTime : ℤ)
    (pulsesPerRevolution : ℚ) : FanController × ℚ :=
  let r := read_fan_fg_frequency c fanId currentTime
  if r.2 > 0 then (r.1, pyRound1 (r.2 * 60 / pulsesPerRevolution))
  else (r.1, 0)

/-- `FanController.emergency_stop` (lines 211-219): for every channel whose
PWM handle is initialized, write duty 0; skip `None` handles; return `True`. -/
def emergency_stop (c : FanController) : FanController × Bool :=
  ({ c with fanPwms := c.fanPwms.map (Option.map (fun _ => (0 : ℤ))) }, true)

/-- `required_stable_count = 3` (line 262). -/
def required_stable_count : ℕ := 3

/-- The polling loop of `wait_for_rpm_stabilization` (lines 264-276).
`samples i` is the value `self.read_fan_rpm(fan_id)` returns at the `i`-th
poll (the measured RPM stream, driven by the external tachometer signal).
`fuel` is the number of polls the `while` guard still admits before the
wall-clock timeout: each iteration sleeps 0.5 s, so the guard
`ticks_diff(now, start) < timeout * 1000` bounds the iteration count. -/
def wait_go (targetRpm tolerance : ℚ) (samples : ℕ → ℚ) :
    ℕ → ℕ → ℕ → Bool
  | 0, _, _ => false
  | fuel+1, i, stableCount =>
    let currentRpm := samples i
    if |currentRpm - targetRpm| ≤ tolerance then
      if stableCount + 1 ≥ required_stable_count then true
      else wait_go targetRpm tolerance samples fuel (i+1) (stableCount + 1)
    else wait_go targetRpm tolerance samples fuel (i+1) 0

/-- `FanController.wait_for_rpm_stabilization` (lines 251-280): starts with
`stable_count = 0` at the first poll; returns `True` (stable) or `False`
(timed out after `maxPolls` polls). -/
def wait_for_rpm_stabilization (targetRpm tolerance : ℚ) (samples : ℕ → ℚ)
    (maxPolls : ℕ) : Bool :=
  wait_go targetRpm tolerance samples maxPolls 0 0

/-- The consecutive-hit counter after `k` polls, when polling starts at
sample index `i` with counter value `c0`: incremented on an in-tolerance
sample, reset to 0 otherwise (lines 266-274). -/
def stable_counts_from (targetRpm tolerance : ℚ) (samples : ℕ → ℚ)
    (i c0 : ℕ) : ℕ → ℕ
  | 0 => c0
  | k+1 =>
    if |samples (i+k) - targetRpm| ≤ tolerance then
      stable_counts_from targetRpm tolerance samples i c0 k + 1
    else 0

/-- Atomic interactions with one channel's `fg_counters[fan_id]` cell.
`edge` is one invocation of the IRQ handler (line 57: `+= 1`);
`drainRead` is the read of the counter at line 82; `drainReset` is the
store of 0 at line 92.  The MicroPython IRQ may fire between any two such
steps of the sequential context, so one execution of `_measure_frequency`
contributes two separate actions, not one. -/
inductive FgAction where
  | edge : FgAction
  | drainRead : FgAction
  | drainReset : FgAction
deriving DecidableEq

/-- Counter cell plus the log of counts the sampler has observed so far. -/
structure FgTraceState where
  counter : ℕ
  observed : List ℕ
deriving DecidableEq

/-- One atomic step of the counter protocol. -/
def fgStep (s : FgTraceState) : FgAction → FgTraceState
  | .edge => { s with counter := s.counter + 1 }
  | .drainRead => { s with observed := s.observed ++ [s.counter] }
  | .drainReset => { s with counter := 0 }

/-- Run a trace of interleaved edge-context and sampler-context actions. -/
def fgRun (s : FgTraceState) : List FgAction → FgTraceState
  | [] => s
  | a :: tr => fgRun (fgStep s a) tr

/-- Number of `on_edge` deliveries in a trace. -/
def numEdges (tr : List FgAction) : ℕ := tr.count FgAction.edge

/-- Well-formed traces: every `drainRead` is eventually followed by its
`drainReset` (with arbitrary interleaved edges), resets never occur outside
a drain, and drains do not nest.  The flag records whether a drain is in
progress. -/
def drainWF : Bool → List FgAction → Bool
  | false, [] => true
  | true, [] => false
  | b, .edge :: tr => drainWF b tr
  | false, .drainRead :: tr => drainWF true tr
  | true, .drainRead :: _ => false
  | true, .drainReset :: tr => drainWF false tr
  | false, .drainReset :: _ => false

/-- Traces in which every drain is indivisible: each `drainRead` is
immediately followed by its `drainReset`, with no edge in between. -/
def atomicDrains : List FgAction → Bool
  | [] => true
  | .edge :: tr => atomicDrains tr
  | .drainRead :: .drainReset :: tr => atomicDrains tr
  | .drainRead :: _ => false
  | .drainReset :: _ => false

/-- Modelled from the spec: the FrequencyEstimator formula of §4.3 with
`edges_per_pulse` as a configuration parameter
(`full_pulses = edge_count / edges_per_pulse`,
`hz = full_pulses / elapsed_seconds`), stated over a millisecond window the
way the code states it. -/
def spec_hz (edgesPerPulse : ℚ) (edgeCount : ℤ) (timeDiffMs : ℤ) : ℚ :=
  ((edgeCount : ℚ) / edgesPerPulse * 1000) / (timeDiffMs : ℚ)

/-- An 8-channel controller fresh out of `__init__` with every PWM and FG
pin initialized (all duties 0, all counters and timestamps 0). -/
def c0 : FanController :=
  ⟨List.replicate 8 (some 0), List.replicate 8 0, List.replicate 8 0,
    List.replicate 8 0, List.replicate 8 true⟩

/-- An 8-channel controller whose channel 2 failed PWM initialization
(`fan_pwms[2] is None`); every other channel holds duty 5. -/
def cUnavail : FanController :=
  ⟨[some 5, some 5, none, some 5, some 5, some 5, some 5, some 5],
    List.replicate 8 0, List.replicate 8 0, List.replicate 8 0,
    List.replicate 8 true⟩

/-- An 8-channel controller with nonzero duties and channel 3 unavailable. -/
def cBank : FanController :=
  ⟨[some 5, some 7, some 9, none, some 1, some 2, some 3, some 4],
    List.replicate 8 0, List.replicate 8 0, List.replicate 8 0,
    List.replicate 8 true⟩

/-- A 1-channel controller whose counter was forced to −10 with a window
started at t = 1000 ms (the situation of the repository's own unit test
`test_negative_pulses_handling`). -/
def cNeg : FanController := ⟨[some 0], [-10], [1000], [0], [true]⟩

/-- A 1-channel controller before its first sample (`fg_last_time[0] = 0`). -/
def cFirst : FanController := ⟨[some 0], [100], [0], [0], [true]⟩

/-- A 1-channel controller with 100 accumulated edges and a window started
at t = 1000 ms. -/
def cHundred : FanController := ⟨[some 0], [100], [1000], [0], [true]⟩

/-- The interleaving that `_measure_frequency` does not defend against: an
edge fires between the counter read (line 82) and the counter reset
(line 92). -/
def trace0 : List FgAction :=
  [.edge, .drainRead, .edge, .drainReset, .drainRead, .drainReset]

/-- The RPM readings of the spec's stabilization example: 2000, 3010, 3040,
3005 on the first four polls. -/
def exRpm : ℕ → ℚ := fun i => [2000, 3010, 3040, 3005].getD i 0

/-- `ratFloor` agrees with the mathematical floor. -/
lemma ratFloor_eq_floor (q : ℚ) : ratFloor q = ⌊q⌋ := by
  rw [ratFloor, Rat.floor_def]
  exact Int.fdiv_eq_ediv _ (Int.natCast_nonneg _)

/-- `List.getD` after `List.set` at the same in-range index. -/
lemma getD_set_self {α : Type _} (l : List α) (i : ℕ) (a d : α)
    (h : i < l.length) : (l.set i a).getD i d = a := by
  simp [List.getD_eq_getElem?_getD, List.getElem?_set_self h]

lemma pyInt_50pct : pyInt ((50 : ℚ) * 1023 / 100) = 511 := by
  rw [pyInt, if_pos (by norm_num : (0:ℚ) ≤ 50 * 1023 / 100), ratFloor_eq_floor]
  norm_num

lemma pyInt_half_1023 : pyInt ((1023 : ℚ) / 2) = 511 := by
  rw [pyInt, if_pos (by norm_num : (0:ℚ) ≤ 1023 / 2), ratFloor_eq_floor]
  norm_num

lemma pyRound1_1500 : pyRound1 (1500 : ℚ) = 1500 := by
  have h : ratFloor (10 * 1500 : ℚ) = 15000 := by rw [ratFloor_eq_floor]; norm_num
  rw [pyRound1, pyRound, h]
  norm_num

lemma pyRound_50pct : pyRound ((50 : ℚ) * 1023 / 100) = 512 := by
  have h : ratFloor ((50 : ℚ) * 1023 / 100) = 511 := by
    rw [ratFloor_eq_floor]; norm_num
  rw [pyRound, h]
  norm_num

/-- `_measure_frequency` returns 0 whenever there is no prior window
(`fg_last_time ≤ 0`) or the elapsed time is not positive. -/
lemma measure_frequency_snd_zero (c : FanController) (fanId t : ℤ)
    (h : c.fgLastTime.getD fanId.toNat 0 ≤ 0 ∨
      t - c.fgLastTime.getD fanId.toNat 0 ≤ 0) :
    (measure_frequency c fanId t).2 = 0 := by
  rw [measure_frequency]
  split
  · rfl
  · dsimp only
    split_ifs with h1 h2
    · omega
    · rfl
    · rfl

/-- `read_fan_fg_frequency` returns 0 under the same no-window guards. -/
lemma read_fan_fg_frequency_snd_zero (c : FanController) (fanId t : ℤ)
    (h : c.fgLastTime.getD fanId.toNat 0 ≤ 0 ∨
      t - c.fgLastTime.getD fanId.toNat 0 ≤ 0) :
    (read_fan_fg_frequency c fanId t).2 = 0 := by
  rw [read_fan_fg_frequency]
  split_ifs with h1 h2 <;>
    first
      | rfl
      | exact measure_frequency_snd_zero c fanId t h

end FanSpec

namespace FanSpec

/-- C4: for every channel, the frequency/RPM sampling path returns
`hz = 0` and `rpm = 0` (total functions, no division performed) whenever
the channel has no prior sampling window (`fg_last_time ≤ 0`, the
first-sample case) or the elapsed time since the last drain is ≤ 0. -/
theorem first_sample_or_zero_elapsed_returns_zero (c : FanController)
    (fanId t : ℤ) (ppr : ℚ)
    (h : c.fgLastTime.getD fanId.toNat 0 ≤ 0 ∨
      t - c.fgLastTime.getD fanId.toNat 0 ≤ 0) :
    (read_fan_fg_frequency c fanId t).2 = 0 ∧
    (read_fan_rpm c fanId t ppr).2 = 0 := by
  have hf := read_fan_fg_frequency_snd_zero c fanId t h
  refine ⟨hf, ?_⟩
  rw [read_fan_rpm]
  split_ifs with hpos
  · rw [hf] at hpos; exact absurd hpos (by norm_num)
  · rfl

/-- Witness for C4: a channel before its first sample returns 0 Hz, 0 RPM. -/
theorem first_sample_or_zero_elapsed_returns_zero_witness :
    (read_fan_fg_frequency cFirst 0 5).2 = 0 ∧
    (read_fan_rpm cFirst 0 5 2).2 = 0 :=
  first_sample_or_zero_elapsed_returns_zero cFirst 0 5 2 (Or.inl (by decide))

/-- C9: `_measure_frequency` on a valid channel resets the channel's pulse
counter to 0 and sets its window-start timestamp to the current time, in
every branch (including the hz = 0 branches). -/
theorem measure_resets_counter_and_window (c : FanController) (fanId t : ℤ)
    (hwf : WF c) (h0 : 0 ≤ fanId) (h1 : fanId < (fanCount c : ℤ)) :
    (measure_frequency c fanId t).1.fgCounters.getD fanId.toNat 0 = 0 ∧
    (measure_frequency c fanId t).1.fgLastTime.getD fanId.toNat 0 = t := by
  obtain ⟨e1, e2, _, _⟩ := hwf
  have hlen1 : fanId.toNat < c.fgCounters.length := by omega
  have hlen2 : fanId.toNat < c.fgLastTime.length := by omega
  rw [measure_frequency, if_neg (by omega)]
  exact ⟨getD_set_self _ _ _ _ hlen1, getD_set_self _ _ _ _ hlen2⟩

/-- Witness for C9: measuring channel 0 of the freshly-initialized bank at
t = 7 leaves its counter at 0 and its window start at 7. -/
theorem measure_resets_counter_and_window_witness :
    (measure_frequency c0 0 7).1.fgCounters.getD 0 0 = 0 ∧
    (measure_frequency c0 0 7).1.fgLastTime.getD 0 0 = 7 :=
  measure_resets_counter_and_window c0 0 7 (by constructor <;> decide)
    (by decide) (by decide)

/-- C10: for a channel id outside `[0, N)` or a channel whose FG pin failed
to initialize, `read_fan_fg_frequency` and `read_fan_rpm` return 0 and
leave the whole controller state unchanged. -/
theorem invalid_channel_reads_zero (c : FanController) (fanId t : ℤ) (ppr : ℚ)
    (h : ¬(0 ≤ fanId ∧ fanId < (fanCount c : ℤ)) ∨
      c.fgPinsList.getD fanId.toNat false = false) :
    read_fan_fg_frequency c fanId t = (c, 0) ∧
    read_fan_rpm c fanId t ppr = (c, 0) := by
  have hf : read_fan_fg_frequency c fanId t = (c, 0) := by
    rw [read_fan_fg_frequency]
    split_ifs with h1 h2
    · rfl
    · rcases h with h | h
      · exact absurd h1 h
      · exact absurd h h2
    · rfl
  refine ⟨hf, ?_⟩
  rw [read_fan_rpm, hf]
  norm_num

/-- Witness for C10: channel 8 of the 8-channel bank reads 0 and the state
is untouched. -/
theorem invalid_channel_reads_zero_witness :
    read_fan_fg_frequency c0 8 5 = (c0, 0) ∧
    read_fan_rpm c0 8 5 2 = (c0, 0) :=
  invalid_channel_reads_zero c0 8 5 2 (Or.inl (by decide))

/-- C5: `_measure_frequency` performs no clamping of a negative counter.
With `fg_counters[0] = -10` and a 1000 ms window it computes
`hz = (-10/2 · 1000)/1000 = -5 < 0`, where the claim (and the repository's
own unit test `test_negative_pulses_handling`) require 0. -/
theorem negative_count_not_clamped :
    (measure_frequency cNeg 0 2000).2 = -5 ∧
    (measure_frequency cNeg 0 2000).2 < 0 := by
  have h : (measure_frequency cNeg 0 2000).2 = -5 := by
    rw [measure_frequency]
    norm_num [cNeg, fanCount]
  exact ⟨h, by rw [h]; norm_num⟩

/-- C8: what `emergency_stop` actually does on a bank whose channel 3 is
unavailable: it writes duty 0 to every initialized channel, skips the
`None` handle, and returns `True`.  The `FanController` state carries no
`stopped` flag for it to set (the repository's unit test
`test_emergency_stop` asserts `controller.stopped`, an attribute that does
not exist). -/
theorem emergency_stop_code_eval :
    emergency_stop cBank =
      ({ cBank with
          fanPwms := [some 0, some 0, some 0, none,
            some 0, some 0, some 0, some 0] }, true) := rfl

/-- C1: `set_fan_speed` computes the duty by truncation
(`int(speed * 1023 / 100)`), not rounding: at 50 % it writes duty 511 to
the PWM collaborator, while `round(50 · 1023 / 100) = 512` — the value the
spec and the repository's own unit test
`test_speed_to_duty_cycle_conversion` demand. -/
theorem set_fan_speed_truncates_duty :
    (set_fan_speed c0 0 50).1.fanPwms.getD 0 none = some 511 ∧
    (set_fan_speed c0 0 50).2 = true ∧
    pyRound ((50 : ℚ) * 1023 / 100) = 512 := by
  refine ⟨?_, ?_, pyRound_50pct⟩ <;>
    norm_num [set_fan_speed, c0, fanCount, pyInt_50pct, pyInt_half_1023]

end FanSpec

namespace FanSpec

/-- C3 counterexample: a well-formed interleaving of `on_edge` deliveries
with the two halves of a drain, in which 2 edges are delivered but the
windows observe a total of only 1 — the edge arriving between the read and
the reset is lost, refuting the claimed indivisibility. -/
theorem drain_read_reset_not_atomic :
    drainWF false trace0 = true ∧
    ¬(fgRun ⟨0, []⟩ trace0).observed.sum = numEdges trace0 := by decide

/-- Conservation for atomic drains, by strong induction on the trace
length (`n` is a length bound). -/
lemma atomic_drain_conservation_aux :
    ∀ (n : ℕ) (tr : List FgAction), tr.length ≤ n →
      atomicDrains tr = true → ∀ (s : FgTraceState),
      (fgRun s tr).observed.sum + (fgRun s tr).counter =
        s.observed.sum + s.counter + numEdges tr := by
  intro n
  induction n with
  | zero =>
    intro tr hlen _ s
    rw [List.eq_nil_of_length_eq_zero (Nat.le_zero.mp hlen)]
    simp [fgRun, numEdges]
  | succ n ih =>
    intro tr hlen h s
    match tr with
    | [] => simp [fgRun, numEdges]
    | .edge :: tr =>
      simp only [atomicDrains] at h
      have hr := ih tr (by simp at hlen; omega) h
        { s with counter := s.counter + 1 }
      simp only [fgRun, fgStep] at hr ⊢
      simp only [numEdges, List.count_cons] at hr ⊢
      simp at hr ⊢
      omega
    | [.drainRead] => simp [atomicDrains] at h
    | .drainRead :: .edge :: _ => simp [atomicDrains] at h
    | .drainRead :: .drainRead :: _ => simp [atomicDrains] at h
    | .drainRead :: .drainReset :: tr =>
      simp only [atomicDrains] at h
      have hr := ih tr (by simp at hlen; omega) h
        { counter := 0, observed := s.observed ++ [s.counter] }
      simp only [fgRun, fgStep] at hr ⊢
      simp only [numEdges, List.count_cons] at hr ⊢
      simp at hr ⊢
      omega
    | .drainReset :: _ => simp [atomicDrains] at h

/-- C3 (amended): the read and the reset of a drain are separate atomic
steps; only when no edge interleaves between them (every `drainRead`
immediately followed by its `drainReset`) is counting conservative: the
counts observed across windows plus the pending counter equal the total
number of edges delivered. -/
theorem atomic_drain_conservation (tr : List FgAction)
    (h : atomicDrains tr = true) (s : FgTraceState) :
    (fgRun s tr).observed.sum + (fgRun s tr).counter =
      s.observed.sum + s.counter + numEdges tr :=
  atomic_drain_conservation_aux tr.length tr le_rfl h s

/-- Witness for C3 (amended): drains kept indivisible observe both edges. -/
theorem atomic_drain_conservation_witness :
    (fgRun ⟨0, []⟩ [.edge, .drainRead, .drainReset, .edge]).observed.sum +
      (fgRun ⟨0, []⟩ [.edge, .drainRead, .drainReset, .edge]).counter =
      (0 : ℕ) + 0 + numEdges [.edge, .drainRead, .drainReset, .edge] :=
  atomic_drain_conservation [.edge, .drainRead, .drainReset, .edge]
    (by decide) ⟨0, []⟩

/-- In the computing branch (`fg_last_time > 0` and `time_diff > 0`),
`_measure_frequency` returns `(pulse_count / 2 · 1000) / time_diff`. -/
lemma measure_hz_formula (c : FanController) (fanId t : ℤ)
    (h0 : 0 ≤ fanId) (h1 : fanId < (fanCount c : ℤ))
    (hlast : 0 < c.fgLastTime.getD fanId.toNat 0)
    (hdiff : 0 < t - c.fgLastTime.getD fanId.toNat 0) :
    (measure_frequency c fanId t).2 =
      ((c.fgCounters.getD fanId.toNat 0 : ℚ) / 2 * 1000) /
        ((t - c.fgLastTime.getD fanId.toNat 0 : ℤ) : ℚ) := by
  rw [measure_frequency, if_neg (by omega)]
  dsimp only
  rw [if_pos hlast, if_pos hdiff]

/-- 100 edges over a 1000 ms window measure as 50 Hz in the code. -/
lemma measure_cHundred : (measure_frequency cHundred 0 2000).2 = 50 := by
  rw [measure_hz_formula cHundred 0 2000 (by decide) (by decide)
    (by decide) (by decide)]
  norm_num [cHundred]

/-- C6 counterexample: the code's frequency computation does not follow the
`full_pulses = edge_count / edges_per_pulse` formula for a configured
`edges_per_pulse`: with 100 edges over 1.0 s the code yields 50 Hz
unconditionally — the spec formula's value for `edges_per_pulse = 2` —
while a configuration of `edges_per_pulse = 4` would demand 25 Hz.  The
divisor 2 is hardcoded at line 84, not a configuration parameter. -/
theorem edges_per_pulse_not_configurable :
    (measure_frequency cHundred 0 2000).2 = 50 ∧
    spec_hz 4 100 1000 = 25 ∧
    spec_hz 2 100 1000 = 50 ∧
    (∀ epp : ℚ, 0 < epp →
        (measure_frequency cHundred 0 2000).2 = spec_hz epp 100 1000) = False := by
  refine ⟨measure_cHundred, by norm_num [spec_hz], by norm_num [spec_hz],
    eq_false ?_⟩
  intro hall
  have h4 := hall 4 (by norm_num)
  rw [measure_cHundred] at h4
  norm_num [spec_hz] at h4

/-- C6 (amended): with the edges-per-pulse ratio hardcoded to 2, the code
computes `full_pulses = edge_count / 2`, `hz = full_pulses · 1000 /
elapsed_ms` whenever a prior window exists and the elapsed time is
positive, and `read_fan_rpm` converts a positive frequency to
`rpm = round(hz · 60 / pulses_per_revolution, 1)` with
`pulses_per_revolution` a genuine parameter. -/
theorem hz_formula_edges_hardcoded_two :
    (∀ (c : FanController) (fanId t : ℤ), 0 ≤ fanId →
      fanId < (fanCount c : ℤ) →
      0 < c.fgLastTime.getD fanId.toNat 0 →
      0 < t - c.fgLastTime.getD fanId.toNat 0 →
      (measure_frequency c fanId t).2 =
        ((c.fgCounters.getD fanId.toNat 0 : ℚ) / 2 * 1000) /
          ((t - c.fgLastTime.getD fanId.toNat 0 : ℤ) : ℚ)) ∧
    (∀ (c : FanController) (fanId t : ℤ) (ppr : ℚ),
      0 < (read_fan_fg_frequency c fanId t).2 →
      (read_fan_rpm c fanId t ppr).2 =
        pyRound1 ((read_fan_fg_frequency c fanId t).2 * 60 / ppr)) := by
  constructor
  · exact fun c fanId t h0 h1 h2 h3 => measure_hz_formula c fanId t h0 h1 h2 h3
  · intro c fanId t ppr hpos
    rw [read_fan_rpm, if_pos hpos]

/-- Shifting the consecutive-hit trace by one poll. -/
lemma scf_shift (T tol : ℚ) (s : ℕ → ℚ) (i c0 : ℕ) :
    ∀ k, stable_counts_from T tol s i c0 (k+1) =
      stable_counts_from T tol s (i+1)
        (if |s i - T| ≤ tol then c0 + 1 else 0) k := by
  intro k
  induction k with
  | zero => simp [stable_counts_from]
  | succ k ih =>
    rw [stable_counts_from, ih, stable_counts_from,
      show i + (k + 1) = (i + 1) + k by omega]

/-- The polling loop returns `True` exactly when the consecutive-hit
counter reaches `required_stable_count` within the poll budget. -/
lemma wait_go_true_iff (T tol : ℚ) (s : ℕ → ℚ) :
    ∀ (fuel i c0 : ℕ), c0 < required_stable_count →
      (wait_go T tol s fuel i c0 = true ↔
        ∃ k, 1 ≤ k ∧ k ≤ fuel ∧
          required_stable_count ≤ stable_counts_from T tol s i c0 k) := by
  intro fuel
  induction fuel with
  | zero =>
    intro i c0 _
    simp only [wait_go, Bool.false_eq_true, false_iff]
    rintro ⟨k, hk1, hk2, _⟩
    omega
  | succ fuel ih =>
    intro i c0 hc0
    rw [wait_go]
    by_cases hhit : |s i - T| ≤ tol
    · rw [if_pos hhit]
      by_cases hreach : c0 + 1 ≥ required_stable_count
      · rw [if_pos hreach]
        simp only [true_iff]
        exact ⟨1, le_refl 1, by omega,
          by rw [show (1:ℕ) = 0 + 1 by rfl, scf_shift, if_pos hhit]
             simpa [stable_counts_from] using hreach⟩
      · rw [if_neg hreach, ih (i+1) (c0+1) (by omega)]
        constructor
        · rintro ⟨k, hk1, hk2, hk3⟩
          exact ⟨k+1, by omega, by omega,
            by rw [scf_shift, if_pos hhit]; exact hk3⟩
        · rintro ⟨k, hk1, hk2, hk3⟩
          match k, hk1 with
          | k'+1, _ =>
            rw [scf_shift, if_pos hhit] at hk3
            match k', hk3 with
            | 0, hk3 => exact absurd hk3 (by simpa [stable_counts_from] using hreach)
            | k''+1, hk3 => exact ⟨k''+1, by omega, by omega, hk3⟩
    · rw [if_neg hhit, ih (i+1) 0 (by simp [required_stable_count])]
      constructor
      · rintro ⟨k, hk1, hk2, hk3⟩
        exact ⟨k+1, by omega, by omega,
          by rw [scf_shift, if_neg hhit]; exact hk3⟩
      · rintro ⟨k, hk1, hk2, hk3⟩
        match k, hk1 with
        | k'+1, _ =>
          rw [scf_shift, if_neg hhit] at hk3
          match k', hk3 with
          | 0, hk3 =>
            exact absurd hk3 (by simp [stable_counts_from, required_stable_count])
          | k''+1, hk3 => exact ⟨k''+1, by omega, by omega, hk3⟩

/-- C7: the stabilization wait is the claimed state machine: it returns
stable (`True`) exactly when the consecutive-hit counter — incremented on
an in-tolerance sample, reset to 0 otherwise — reaches
`required_stable_count = 3` within the poll budget, and times out
(`False`) exactly otherwise; on the RPM sequence 2000, 3010, 3040, 3005
with target 3000 and tolerance 50 the counter runs 0, 1, 2, 3 and the wait
succeeds on the 4th poll (and times out if the budget ends before it). -/
theorem stabilization_state_machine :
    (∀ (T tol : ℚ) (s : ℕ → ℚ) (fuel : ℕ),
        wait_for_rpm_stabilization T tol s fuel = true ↔
          ∃ k, 1 ≤ k ∧ k ≤ fuel ∧
            required_stable_count ≤ stable_counts_from T tol s 0 0 k) ∧
    stable_counts_from 3000 50 exRpm 0 0 1 = 0 ∧
    stable_counts_from 3000 50 exRpm 0 0 2 = 1 ∧
    stable_counts_from 3000 50 exRpm 0 0 3 = 2 ∧
    stable_counts_from 3000 50 exRpm 0 0 4 = 3 ∧
    wait_for_rpm_stabilization 3000 50 exRpm 4 = true ∧
    wait_for_rpm_stabilization 3000 50 exRpm 3 = false := by
  refine ⟨?_, ?_, ?_, ?_, ?_, ?_, ?_⟩
  · intro T tol s fuel
    exact wait_go_true_iff T tol s fuel 0 0 (by simp [required_stable_count])
  · norm_num [stable_counts_from, exRpm, abs_le]
  · norm_num [stable_counts_from, exRpm, abs_le]
  · norm_num [stable_counts_from, exRpm, abs_le]
  · norm_num [stable_counts_from, exRpm, abs_le]
  · norm_num [wait_for_rpm_stabilization, wait_go, exRpm,
      required_stable_count, abs_le]
  · norm_num [wait_for_rpm_stabilization, wait_go, exRpm,
      required_stable_count, abs_le]

/-- Witness for C6 (amended): 100 edges over 1.0 s measure as `hz = 50`;
with `pulses_per_revolution = 2` the reported speed is `rpm = 1500`. -/
theorem hz_formula_edges_hardcoded_two_witness :
    (measure_frequency cHundred 0 2000).2 = 50 ∧
    (read_fan_rpm cHundred 0 2000 2).2 = 1500 := by
  obtain ⟨hgen, hrpm⟩ := hz_formula_edges_hardcoded_two
  have h1 := hgen cHundred 0 2000 (by decide) (by decide) (by decide) (by decide)
  have hm : (measure_frequency cHundred 0 2000).2 = 50 := by
    rw [h1]; norm_num [cHundred]
  have hread : read_fan_fg_frequency cHundred 0 2000 =
      measure_frequency cHundred 0 2000 := by
    rw [read_fan_fg_frequency, if_neg (by decide), if_neg (by decide)]
  have h2 := hrpm cHundred 0 2000 2 (by rw [hread, hm]; norm_num)
  rw [hread, hm] at h2
  refine ⟨hm, ?_⟩
  rw [h2, show (50 : ℚ) * 60 / 2 = 1500 by norm_num, pyRound1_1500]

/-- An out-of-range percentage makes `set_fan_speed` return `False` without
touching the state, for every channel. -/
lemma set_fan_speed_invalid_speed (c : FanController) (fanId : ℤ) (s : ℚ)
    (hs : ¬(0 ≤ s ∧ s ≤ 100)) : set_fan_speed c fanId s = (c, false) := by
  rw [set_fan_speed]
  split_ifs <;> rfl

/-- `set_fan_speed` never changes the number of channels. -/
lemma fanCount_set_fan_speed (c : FanController) (fanId : ℤ) (s : ℚ) :
    fanCount (set_fan_speed c fanId s).1 = fanCount c := by
  rw [set_fan_speed]
  split_ifs <;> try rfl
  rcases hopt : c.fanPwms.getD fanId.toNat none with _ | d <;>
    simp [hopt, fanCount]

/-- `set_fan_speed` leaves every other channel's PWM handle unchanged. -/
lemma set_fan_speed_pwms_ne (c : FanController) (fanId : ℤ) (s : ℚ) (j : ℕ)
    (hj : j ≠ fanId.toNat) :
    (set_fan_speed c fanId s).1.fanPwms.getD j none =
      c.fanPwms.getD j none := by
  rw [set_fan_speed]
  split_ifs <;> try rfl
  rcases hopt : c.fanPwms.getD fanId.toNat none with _ | d
  · rfl
  · simp [List.getD_eq_getElem?_getD, List.getElem?_set_ne (Ne.symm hj)]

/-- On a valid channel with a valid percentage, `set_fan_speed` writes
`int(speed·1023/100)` into an initialized handle (and skips a `None` one),
returning whether the handle was initialized. -/
lemma set_fan_speed_nat (c : FanController) (i : ℕ) (s : ℚ)
    (hi : i < fanCount c) (hs0 : 0 ≤ s) (hs1 : s ≤ 100) :
    (set_fan_speed c (i : ℤ) s).1.fanPwms.getD i none =
      Option.map (fun _ => pyInt (s * 1023 / 100)) (c.fanPwms.getD i none) ∧
    (set_fan_speed c (i : ℤ) s).2 = (c.fanPwms.getD i none).isSome := by
  have hv : ¬¬(0 ≤ (i : ℤ) ∧ (i : ℤ) < (fanCount c : ℤ)) := by
    push_neg
    exact ⟨Int.natCast_nonneg i, by exact_mod_cast hi⟩
  have hsv : ¬¬(0 ≤ s ∧ s ≤ 100) := by
    push_neg
    exact ⟨hs0, hs1⟩
  rw [set_fan_speed, if_neg hv, if_neg hsv]
  simp only [Int.toNat_natCast]
  rcases hopt : c.fanPwms.getD i none with _ | d
  · refine ⟨?_, ?_⟩ <;> simp [← List.getD_eq_getElem?_getD, hopt]
  · refine ⟨?_, by simp [hopt]⟩
    have hset := getD_set_self c.fanPwms i (some (pyInt (s * 1023 / 100))) none hi
    simpa [hopt] using hset

/-- With an invalid percentage, the whole `set_all_fans_speed` loop leaves
the state untouched and counts zero successes. -/
lemma set_all_go_invalid (s : ℚ) (hs : ¬(0 ≤ s ∧ s ≤ 100)) :
    ∀ (k i : ℕ) (c : FanController), set_all_go s c i k = (c, 0) := by
  intro k
  induction k with
  | zero => intro i c; rfl
  | succ k ih =>
    intro i c
    rw [set_all_go, set_fan_speed_invalid_speed c (i : ℤ) s hs]
    simp [ih (i+1) c]

/-- With a valid percentage, the loop over channels `i, …, i+k-1` maps
every initialized handle in that window to the computed duty and leaves
handles outside the window (and `None` handles) unchanged. -/
lemma set_all_go_pwms (s : ℚ) (hs0 : 0 ≤ s) (hs1 : s ≤ 100) :
    ∀ (k i : ℕ) (c : FanController), i + k ≤ fanCount c →
      ∀ j, (set_all_go s c i k).1.fanPwms.getD j none =
        if i ≤ j ∧ j < i + k then
          Option.map (fun _ => pyInt (s * 1023 / 100)) (c.fanPwms.getD j none)
        else c.fanPwms.getD j none := by
  intro k
  induction k with
  | zero =>
    intro i c _ j
    have : ¬(i ≤ j ∧ j < i + 0) := by omega
    rw [set_all_go, if_neg this]
  | succ k ih =>
    intro i c hik j
    rw [set_all_go]
    dsimp only
    have hcnt := fanCount_set_fan_speed c (i : ℤ) s
    rw [ih (i+1) (set_fan_speed c (i : ℤ) s).1 (by omega) j]
    by_cases hj : j = i
    · subst hj
      rw [if_neg (by omega), if_pos (by omega)]
      exact (set_fan_speed_nat c j s (by omega) hs0 hs1).1
    · rw [set_fan_speed_pwms_ne c (i : ℤ) s j (by simpa using hj)]
      split_ifs <;> first | rfl | omega

/-- With a valid percentage, the loop's success count is the number of
initialized handles among channels `i, …, i+k-1`. -/
lemma set_all_go_count (s : ℚ) (hs0 : 0 ≤ s) (hs1 : s ≤ 100) :
    ∀ (k i : ℕ) (c : FanController), i + k ≤ fanCount c →
      (set_all_go s c i k).2 =
        (List.range' i k).countP (fun j => (c.fanPwms.getD j none).isSome) := by
  intro k
  induction k with
  | zero => intro i c _; rfl
  | succ k ih =>
    intro i c hik
    rw [set_all_go]
    dsimp only
    have hcnt := fanCount_set_fan_speed c (i : ℤ) s
    rw [ih (i+1) (set_fan_speed c (i : ℤ) s).1 (by omega)]
    have hsame : (List.range' (i+1) k).countP
        (fun j => ((set_fan_speed c (i : ℤ) s).1.fanPwms.getD j none).isSome) =
        (List.range' (i+1) k).countP
          (fun j => (c.fanPwms.getD j none).isSome) := by
      refine List.countP_congr ?_
      intro j hj
      have hji : i + 1 ≤ j := by
        rcases List.mem_range'.mp hj with ⟨m, _, rfl⟩
        omega
      rw [set_fan_speed_pwms_ne c (i : ℤ) s j (by simp; omega)]
    rw [hsame, (set_fan_speed_nat c i s (by omega) hs0 hs1).2,
      List.range'_succ, List.countP_cons]

/-- Membership in a unit-step `range'`. -/
lemma mem_range'_iff (s n m : ℕ) : m ∈ List.range' s n ↔ s ≤ m ∧ m < s + n := by
  rw [List.mem_range']
  constructor
  · rintro ⟨i, hi, rfl⟩
    omega
  · intro ⟨h1, h2⟩
    exact ⟨m - s, by omega, by omega⟩

/-- C2 counterexample: on a bank whose channel 2 is unavailable — an
invalid element in the claim's sense — `set_all_fans_speed 50` still
writes duty 511 to channel 0 (previously 5) and to every other available
channel before reporting failure: one invalid element does not prevent the
others from being modified. -/
theorem set_all_not_all_or_nothing :
    cUnavail.fanPwms.getD 2 none = none ∧
    cUnavail.fanPwms.getD 0 none = some 5 ∧
    (set_all_fans_speed cUnavail 50).1.fanPwms.getD 0 none = some 511 ∧
    (set_all_fans_speed cUnavail 50).2 = false := by
  refine ⟨rfl, rfl, ?_, ?_⟩
  · have h := set_all_go_pwms 50 (by norm_num) (by norm_num) 8 0 cUnavail
      (by decide) 0
    rw [set_all_fans_speed]
    dsimp only
    rw [show fanCount cUnavail = 8 from rfl, h, if_pos (by omega)]
    norm_num [cUnavail, pyInt_50pct, pyInt_half_1023]
  · have h := set_all_go_count 50 (by norm_num) (by norm_num) 8 0 cUnavail
      (by decide)
    rw [set_all_fans_speed]
    dsimp only
    rw [show fanCount cUnavail = 8 from rfl, h]
    decide

/-- C2 (amended): `set_all_fans_speed` takes one percentage and applies it
to each channel sequentially and independently: an out-of-range percentage
modifies nothing; otherwise every initialized channel is written duty
`int(speed·1023/100)` even when some other channel is unavailable
(partial apply, not all-or-nothing), and the call reports success exactly
when every channel's write succeeded. -/
theorem set_all_per_channel_partial_apply :
    (∀ (c : FanController) (s : ℚ), ¬(0 ≤ s ∧ s ≤ 100) →
      (set_all_fans_speed c s).1 = c) ∧
    (∀ (c : FanController) (s : ℚ) (j : ℕ), 0 ≤ s → s ≤ 100 →
      j < fanCount c →
      (set_all_fans_speed c s).1.fanPwms.getD j none =
        Option.map (fun _ => pyInt (s * 1023 / 100)) (c.fanPwms.getD j none)) ∧
    (∀ (c : FanController) (s : ℚ), 0 ≤ s → s ≤ 100 →
      ((set_all_fans_speed c s).2 = true ↔
        ∀ j, j < fanCount c → (c.fanPwms.getD j none).isSome = true)) := by
  refine ⟨?_, ?_, ?_⟩
  · intro c s hs
    rw [set_all_fans_speed]
    dsimp only
    rw [set_all_go_invalid s hs (fanCount c) 0 c]
  · intro c s j hs0 hs1 hj
    rw [set_all_fans_speed]
    dsimp only
    rw [set_all_go_pwms s hs0 hs1 (fanCount c) 0 c (by omega) j,
      if_pos (by omega)]
  · intro c s hs0 hs1
    rw [set_all_fans_speed]
    dsimp only
    rw [set_all_go_count s hs0 hs1 (fanCount c) 0 c (by omega)]
    rw [decide_eq_true_iff]
    have hlen : (List.range' 0 (fanCount c)).length = fanCount c :=
      List.length_range' 0 1 (fanCount c)
    constructor
    · intro hcnt j hj
      have hall := List.countP_eq_length.mp (hcnt.trans hlen.symm)
      exact hall j ((mem_range'_iff 0 (fanCount c) j).mpr ⟨by omega, by omega⟩)
    · intro hall
      refine (List.countP_eq_length.mpr ?_).trans hlen
      intro j hj
      have hj' := (mem_range'_iff 0 (fanCount c) j).mp hj
      exact hall j (by omega)

/-- Witness for C2 (amended): an out-of-range percentage leaves the bank
untouched; a valid one is written through to an available channel even
when another channel is unavailable; on a fully available bank the call
succeeds. -/
theorem set_all_per_channel_partial_apply_witness :
    (set_all_fans_speed c0 101).1 = c0 ∧
    (set_all_fans_speed cUnavail 50).1.fanPwms.getD 1 none = some 511 ∧
    (set_all_fans_speed c0 50).2 = true := by
  obtain ⟨p1, p2, p3⟩ := set_all_per_channel_partial_apply
  refine ⟨p1 c0 101 (by norm_num), ?_, ?_⟩
  · rw [p2 cUnavail 50 1 (by norm_num) (by norm_num) (by decide)]
    norm_num [cUnavail, pyInt_50pct, pyInt_half_1023]
  · exact (p3 c0 50 (by norm_num) (by norm_num)).mpr (by decide)

end FanSpec
